import Mathlib

/-!
Verification of the contour shape/color classification engine
(`src/utils/proga1.py`, `src/detect_shapes.py`, `src/detected_figures.py`).

The geometry primitives (contour area, arc length, Douglas-Peucker polygon
simplification, axis-aligned bounding rectangle, minimum-area bounding
rectangle with integer-rounded corner points, and area moments) are external
collaborators of the engine (OpenCV).  They are modelled as an abstract
`Geometry` record of functions; the classification logic itself is embedded
faithfully on top of it.  Floating-point numbers are idealised as rationals;
`np.pi` is the exact rational value of the IEEE-754 double `np.pi`.
-/

set_option autoImplicit false

/-- A contour point (`numpy` integer pair). -/
abbrev Point := ℤ × ℤ

/-- A contour: an ordered closed sequence of integer points (`np.ndarray`). -/
abbrev Contour := List Point

/-- The exact rational value of the IEEE-754 double `np.pi`. -/
def npPi : ℚ := 884279719003555 / 281474976710656

/-- The external geometry primitives (OpenCV collaborators), as abstract
functions:
* `contourArea c` models `cv2.contourArea(c)`;
* `arcLength c` models `cv2.arcLength(c, True)` (closed perimeter);
* `approxPolyDP c eps` models `cv2.approxPolyDP(c, eps, True)`
  (Douglas-Peucker simplification at tolerance `eps`);
* `boundingRect poly` models `cv2.boundingRect(poly)`, an `(x, y, w, h)`
  integer quadruple;
* `minAreaRectBox c` models `np.intp(cv2.boxPoints(cv2.minAreaRect(c)))`,
  the minimum-area bounding rectangle's corner points rounded to integers;
* `m00`, `m10`, `m01` model the corresponding fields of `cv2.moments(c)`. -/
structure Geometry where
  contourArea : Contour → ℚ
  arcLength : Contour → ℚ
  approxPolyDP : Contour → ℚ → List Point
  boundingRect : List Point → ℤ × ℤ × ℤ × ℤ
  minAreaRectBox : Contour → Contour
  m00 : Contour → ℚ
  m10 : Contour → ℚ
  m01 : Contour → ℚ

/-- The shape verdict of `ShapeDetector.detect` (`src/utils/proga1.py`).
`square` is the source's `"квадрат"`, `rectangle` is `"прямоугольник"`,
`unknown` is `"неопознанная"`. -/
inductive Shape where
  | square
  | rectangle
  | unknown
deriving DecidableEq

/-- The aspect ratio `ar = w / float(h)` of the bounding rectangle of a
simplified polygon (`src/utils/proga1.py`, lines 28-29). -/
def arOf (G : Geometry) (approx : List Point) : ℚ :=
  let r := G.boundingRect approx
  (r.2.2.1 : ℚ) / (r.2.2.2 : ℚ)

/-- `ShapeDetector.detect` (`src/utils/proga1.py`, lines 10-33): approximate
the contour with Douglas-Peucker at `epsilon = 0.04 * peri` where `peri` is
the closed perimeter; a 4-vertex approximation is a `square` when the
bounding-box aspect ratio lies in `[0.95, 1.05]` and a `rectangle` otherwise;
any other vertex count is `unknown`. -/
def ShapeDetector.detect (G : Geometry) (c : Contour) : Shape :=
  let peri := G.arcLength c
  let approx := G.approxPolyDP c (0.04 * peri)
  if approx.length = 4 then
    if 0.95 ≤ arOf G approx ∧ arOf G approx ≤ 1.05 then Shape.square
    else Shape.rectangle
  else Shape.unknown

/-- The circularity `(4 * np.pi * area) / (perimeter ** 2)`
(`src/detect_shapes.py`, line 50). -/
def circularity (area perimeter : ℚ) : ℚ :=
  4 * npPi * area / perimeter ^ 2

/-- The three result buckets of `classify_contours`. -/
inductive Bucket where
  | circles
  | rects
  | others
deriving DecidableEq

/-- The rectangle fill-ratio filter of `classify_contours`
(`src/detect_shapes.py`, lines 55-64): recompute the minimum-area bounding
rectangle, keep the contour as a rectangle when `box_area > 0` and
`area / box_area > 0.95`, otherwise demote it to `others`. -/
def rectFillCheck (G : Geometry) (cnt : Contour) : Bucket :=
  let box_area := G.contourArea (G.minAreaRectBox cnt)
  if box_area > 0 ∧ G.contourArea cnt / box_area > 0.95 then Bucket.rects
  else Bucket.others

/-- The per-contour body of the `classify_contours` loop
(`src/detect_shapes.py`, lines 43-67): degenerate contours
(`perimeter <= 0 or area <= 0`) go to `others`; a contour whose circularity
strictly exceeds the threshold goes to `circles`; otherwise the
`ShapeDetector` verdict decides: `rectangle`/`square` verdicts run the
fill-ratio filter, `unknown` goes to `others`. -/
def classifyOne (G : Geometry) (t : ℚ) (cnt : Contour) : Bucket :=
  if G.arcLength cnt ≤ 0 ∨ G.contourArea cnt ≤ 0 then Bucket.others
  else if circularity (G.contourArea cnt) (G.arcLength cnt) > t then
    Bucket.circles
  else
    match ShapeDetector.detect G cnt with
    | Shape.rectangle => rectFillCheck G cnt
    | Shape.square => rectFillCheck G cnt
    | Shape.unknown => Bucket.others

/-- Prepend a contour to the bucket selected by its verdict (the three
`append` calls of the loop, expressed head-first). -/
def addToBucket (cnt : Contour) (b : Bucket)
    (r : List Contour × List Contour × List Contour) :
    List Contour × List Contour × List Contour :=
  match b with
  | Bucket.circles => (cnt :: r.1, r.2.1, r.2.2)
  | Bucket.rects => (r.1, cnt :: r.2.1, r.2.2)
  | Bucket.others => (r.1, r.2.1, cnt :: r.2.2)

/-- Bucketing a list of valid contours, preserving input order. -/
def bucketsOf (G : Geometry) (t : ℚ) :
    List Contour → List Contour × List Contour × List Contour
  | [] => ([], [], [])
  | cnt :: rest => addToBucket cnt (classifyOne G t cnt) (bucketsOf G t rest)

/-- An element of the Python list passed to `classify_contours`: either an
`np.ndarray` contour or a value of any other type. -/
inductive PyVal where
  | ndarray (c : Contour)
  | invalid
deriving DecidableEq

/-- The `contours` argument of `classify_contours`: either not a
list/tuple at all, or a sequence of elements. -/
inductive ContoursInput where
  | notSeq
  | seq (l : List PyVal)

/-- The Python exceptions raised by `classify_contours`. -/
inductive PyError where
  | typeError
  | valueError
deriving DecidableEq

/-- The `for cnt in contours` loop of `classify_contours`
(`src/detect_shapes.py`, lines 39-67): non-`ndarray` elements are skipped
(`continue`), each remaining contour is routed to its bucket. -/
def classifyLoop (G : Geometry) (t : ℚ) :
    List PyVal → List Contour × List Contour × List Contour
  | [] => ([], [], [])
  | PyVal.invalid :: rest => classifyLoop G t rest
  | PyVal.ndarray cnt :: rest =>
      addToBucket cnt (classifyOne G t cnt) (classifyLoop G t rest)

/-- The `ndarray` elements of the input, in order. -/
def validContours (l : List PyVal) : List Contour :=
  l.filterMap fun v =>
    match v with
    | PyVal.ndarray c => some c
    | PyVal.invalid => none

/-- The default of the `circularity_threshold` parameter of
`classify_contours` (`src/detect_shapes.py`, line 11). -/
def defaultCircularityThreshold : ℚ := 0.8

/-- The circularity threshold used by the top-level pipelines
(`classify_contours(contours, circularity_threshold=0.82)` in the `main`
functions of `src/detect_shapes.py` and `src/detected_figures.py`). -/
def pipelineCircularityThreshold : ℚ := 0.82

/-- `classify_contours` (`src/detect_shapes.py`, lines 11-69): raise
`TypeError` when the argument is not a list or tuple, `ValueError` when the
sequence is empty, otherwise run the classification loop. -/
def classify_contours (G : Geometry) (input : ContoursInput) (t : ℚ) :
    Except PyError (List Contour × List Contour × List Contour) :=
  match input with
  | ContoursInput.notSeq => Except.error PyError.typeError
  | ContoursInput.seq l =>
      if l = [] then Except.error PyError.valueError
      else Except.ok (classifyLoop G t l)

/-- An HSV pixel value, one natural number per channel. -/
abbrev HSV := ℕ × ℕ × ℕ

/-- An HSV image: its `shape[0]` (height), `shape[1]` (width), and the pixel
grid, addressed as `pixel y x` like `hsv_img[y, x]`. -/
structure HsvImage where
  height : ℕ
  width : ℕ
  pixel : ℕ → ℕ → HSV

/-- `cv2.inRange` on a single pixel: every channel lies within the closed
(inclusive) bounds. -/
def inRange (px lower upper : HSV) : Bool :=
  decide (lower.1 ≤ px.1 ∧ px.1 ≤ upper.1 ∧
    lower.2.1 ≤ px.2.1 ∧ px.2.1 ≤ upper.2.1 ∧
    lower.2.2 ≤ px.2.2 ∧ px.2.2 ≤ upper.2.2)

/-- A color range table entry (`src/detected_figures.py`, lines 30-39):
either a single `(lower, upper)` interval or a list of intervals (the
duck-typed `isinstance(ranges, list)` case, used for hue-wrapping colors). -/
inductive ColorRanges where
  | single (lower upper : HSV)
  | multi (intervals : List (HSV × HSV))

/-- A pixel matches a table entry when it lies in the single interval, or,
for a list entry, in any one of the listed intervals. -/
def rangesMatch : ColorRanges → HSV → Bool
  | ColorRanges.single lower upper, px => inRange px lower upper
  | ColorRanges.multi intervals, px =>
      intervals.any fun r => inRange px r.1 r.2

/-- The entry loop of `get_color_at_point`: return the name of the first
matching entry in table order, `"unknown"` when none matches. -/
def firstColor (px : HSV) : List (String × ColorRanges) → String
  | [] => "unknown"
  | (color_name, ranges) :: rest =>
      if rangesMatch ranges px then color_name else firstColor px rest

/-- `get_color_at_point` (`src/detected_figures.py`, lines 41-61): out of
bounds coordinates yield `"unknown"`; otherwise the pixel at `(y, x)` is
tested against each table entry in insertion order. -/
def get_color_at_point (hsv_img : HsvImage) (x y : ℤ)
    (color_ranges : List (String × ColorRanges)) : String :=
  if x < 0 ∨ y < 0 ∨ x ≥ (hsv_img.width : ℤ) ∨ y ≥ (hsv_img.height : ℤ) then
    "unknown"
  else firstColor (hsv_img.pixel y.toNat x.toNat) color_ranges

/-- The default `color_hsv_ranges` table of `detect_shapes_and_colors`
(`src/detected_figures.py`, lines 29-39). -/
def default_color_hsv_ranges : List (String × ColorRanges) :=
  [("red", ColorRanges.multi
      [((0, 50, 50), (10, 255, 255)), ((160, 50, 50), (180, 255, 255))]),
   ("green", ColorRanges.single (35, 50, 50) (85, 255, 255)),
   ("blue", ColorRanges.single (100, 50, 50) (130, 255, 255)),
   ("yellow", ColorRanges.single (20, 50, 50) (35, 255, 255))]

/-- Python's `int()` truncation toward zero, on a rational. -/
def pyInt (q : ℚ) : ℤ :=
  if 0 ≤ q then ⌊q⌋ else ⌈q⌉

/-- The per-pair body of the `detect_shapes_and_colors` loop
(`src/detected_figures.py`, lines 67-87): skip the pair when the contour
area is below 100; when `m00 != 0`, compute the truncated centroid, pick
`"unknown"` for an out-of-bounds centroid and the sampled color otherwise,
and produce the `(contour, shape_label, color)` record; when `m00 == 0`,
produce nothing. -/
def labelOne (G : Geometry) (img : HsvImage)
    (table : List (String × ColorRanges)) (contour : Contour)
    (shape_label : String) : Option (Contour × String × String) :=
  if G.contourArea contour < 100 then none
  else if G.m00 contour ≠ 0 then
    let cx := pyInt (G.m10 contour / G.m00 contour)
    let cy := pyInt (G.m01 contour / G.m00 contour)
    let color :=
      if cx < 0 ∨ cy < 0 ∨ cx ≥ (img.width : ℤ) ∨ cy ≥ (img.height : ℤ) then
        "unknown"
      else get_color_at_point img cx cy table
    some (contour, shape_label, color)
  else none

/-- The analysis loop of `detect_shapes_and_colors`
(`src/detected_figures.py`, lines 63-104): iterate over
`zip(contours_list, shape_labels)` and collect the produced records in
input order. -/
def detect_shapes_and_colors (G : Geometry) (img : HsvImage)
    (table : List (String × ColorRanges)) (contours_list : List Contour)
    (shape_labels : List String) : List (Contour × String × String) :=
  (contours_list.zip shape_labels).filterMap fun p =>
    labelOne G img table p.1 p.2

/-- A concrete geometry used to exercise the circle branch and the labeler:
a contour of area 10000 and perimeter 400 (circularity `npPi / 4`), with
moments giving the centroid `(5, 5)`. -/
def witGeomA : Geometry where
  contourArea := fun _ => 10000
  arcLength := fun _ => 400
  approxPolyDP := fun _ _ => []
  boundingRect := fun _ => (0, 0, 0, 0)
  minAreaRectBox := fun _ => []
  m00 := fun _ => 2
  m10 := fun _ => 10
  m01 := fun _ => 10

/-- A concrete geometry used to exercise the rectangle branch: area 1,
perimeter 100 (tiny circularity), a 4-vertex approximation whose bounding
rectangle is 2 wide and 1 high. -/
def witGeomB : Geometry where
  contourArea := fun _ => 1
  arcLength := fun _ => 100
  approxPolyDP := fun _ _ => [(0, 0), (2, 0), (2, 1), (0, 1)]
  boundingRect := fun _ => (0, 0, 2, 1)
  minAreaRectBox := fun _ => []
  m00 := fun _ => 0
  m10 := fun _ => 0
  m01 := fun _ => 0

/-- A concrete geometry whose contours are degenerate (zero perimeter and
area). -/
def witGeomDeg : Geometry where
  contourArea := fun _ => 0
  arcLength := fun _ => 0
  approxPolyDP := fun _ _ => []
  boundingRect := fun _ => (0, 0, 0, 0)
  minAreaRectBox := fun _ => []
  m00 := fun _ => 0
  m10 := fun _ => 0
  m01 := fun _ => 0

/-- A concrete 4x4 image with a constant green-ish pixel. -/
def witImg : HsvImage where
  height := 4
  width := 4
  pixel := fun _ _ => (5, 60, 60)

theorem pos_of_div_gt {a b : ℚ} (ha : 0 < a) (h : a / b > 0.95) : 0 < b := by
  rcases lt_trichotomy b 0 with hb | hb | hb
  · exfalso
    have hneg : a / b < 0 := div_neg_of_pos_of_neg ha hb
    linarith
  · exfalso
    rw [hb, div_zero] at h
    linarith
  · exact hb

theorem classifyLoop_eq_bucketsOf (G : Geometry) (t : ℚ) (l : List PyVal) :
    classifyLoop G t l = bucketsOf G t (validContours l) := by
  induction l with
  | nil => rfl
  | cons v rest ih =>
      cases v with
      | ndarray c => simp [classifyLoop, validContours, bucketsOf, ih,
          List.filterMap_cons]
      | invalid => simpa [classifyLoop, validContours, List.filterMap_cons]
          using ih

theorem bucketsOf_append (G : Geometry) (t : ℚ) (xs ys : List Contour) :
    bucketsOf G t (xs ++ ys) =
      ((bucketsOf G t xs).1 ++ (bucketsOf G t ys).1,
       (bucketsOf G t xs).2.1 ++ (bucketsOf G t ys).2.1,
       (bucketsOf G t xs).2.2 ++ (bucketsOf G t ys).2.2) := by
  induction xs with
  | nil => simp [bucketsOf]
  | cons c rest ih =>
      cases hc : classifyOne G t c <;>
        simp [bucketsOf, addToBucket, hc, ih]

theorem zip_eq_zip_take_min {α β : Type} (l1 : List α) (l2 : List β) :
    l1.zip l2 =
      (l1.take (min l1.length l2.length)).zip
        (l2.take (min l1.length l2.length)) := by
  induction l1 generalizing l2 with
  | nil => simp
  | cons a l ih =>
      cases l2 with
      | nil => simp
      | cons b m =>
          simp only [List.length_cons, Nat.succ_min_succ, List.take_succ_cons,
            List.zip_cons_cons]
          exact congrArg _ (ih m)

/-- C1: for every contour reaching the polygon step, the contour is
simplified with Douglas-Peucker at epsilon = 0.04 times its closed
perimeter; the verdict is square iff the simplified polygon has exactly 4
vertices and the bounding-box aspect ratio lies within [0.95, 1.05],
rectangle iff it has 4 vertices and the ratio lies outside that band, and
unknown iff the vertex count differs from 4. -/
theorem claim_C1 (G : Geometry) (c : Contour) :
    (ShapeDetector.detect G c = Shape.square ↔
      (G.approxPolyDP c (0.04 * G.arcLength c)).length = 4 ∧
        (0.95 ≤ arOf G (G.approxPolyDP c (0.04 * G.arcLength c)) ∧
         arOf G (G.approxPolyDP c (0.04 * G.arcLength c)) ≤ 1.05)) ∧
    (ShapeDetector.detect G c = Shape.rectangle ↔
      (G.approxPolyDP c (0.04 * G.arcLength c)).length = 4 ∧
        ¬(0.95 ≤ arOf G (G.approxPolyDP c (0.04 * G.arcLength c)) ∧
          arOf G (G.approxPolyDP c (0.04 * G.arcLength c)) ≤ 1.05)) ∧
    (ShapeDetector.detect G c = Shape.unknown ↔
      (G.approxPolyDP c (0.04 * G.arcLength c)).length ≠ 4) := by
  unfold ShapeDetector.detect
  dsimp only
  split_ifs with h1 h2 <;> simp_all

/-- C2: for a contour with positive area and perimeter, the partitioner
computes circularity 4*pi*A/P^2 and, when it strictly exceeds the
threshold (default 0.8, 0.82 in the top-level pipeline), the contour lands
in the circles bucket, independently of the polygon primitives; otherwise
the outcome is decided by the vertex-count classifier branch. -/
theorem claim_C2 (G G' : Geometry) (t : ℚ) (cnt : Contour)
    (hA : 0 < G.contourArea cnt) (hP : 0 < G.arcLength cnt) :
    defaultCircularityThreshold = 0.8 ∧
    pipelineCircularityThreshold = 0.82 ∧
    (circularity (G.contourArea cnt) (G.arcLength cnt) > t →
      classifyOne G t cnt = Bucket.circles ∧
      (G'.contourArea = G.contourArea → G'.arcLength = G.arcLength →
        classifyOne G' t cnt = Bucket.circles)) ∧
    (¬ circularity (G.contourArea cnt) (G.arcLength cnt) > t →
      classifyOne G t cnt =
        match ShapeDetector.detect G cnt with
        | Shape.rectangle => rectFillCheck G cnt
        | Shape.square => rectFillCheck G cnt
        | Shape.unknown => Bucket.others) := by
  have hdeg : ¬ (G.arcLength cnt ≤ 0 ∨ G.contourArea cnt ≤ 0) := by
    push_neg
    exact ⟨hP, hA⟩
  refine ⟨rfl, rfl, ?_, ?_⟩
  · intro hgt
    constructor
    · unfold classifyOne
      rw [if_neg hdeg, if_pos hgt]
    · intro hca hal
      unfold classifyOne
      rw [hca, hal, if_neg hdeg, if_pos hgt]
  · intro hng
    unfold classifyOne
    rw [if_neg hdeg, if_neg hng]

/-- C3: for a valid, non-circular contour classified rectangle or square by
the shape classifier, the partitioner recomputes the minimum-area bounding
rectangle and keeps the contour in the rectangles bucket iff the fill
ratio contour_area / rectangle_area exceeds 0.95; a failing fill ratio
routes it to others. -/
theorem claim_C3 (G : Geometry) (t : ℚ) (cnt : Contour)
    (hA : 0 < G.contourArea cnt) (hP : 0 < G.arcLength cnt)
    (hC : ¬ circularity (G.contourArea cnt) (G.arcLength cnt) > t)
    (hS : ShapeDetector.detect G cnt = Shape.rectangle ∨
      ShapeDetector.detect G cnt = Shape.square) :
    (classifyOne G t cnt = Bucket.rects ↔
      G.contourArea cnt / G.contourArea (G.minAreaRectBox cnt) > 0.95) ∧
    (¬ G.contourArea cnt / G.contourArea (G.minAreaRectBox cnt) > 0.95 →
      classifyOne G t cnt = Bucket.others) := by
  have hdeg : ¬ (G.arcLength cnt ≤ 0 ∨ G.contourArea cnt ≤ 0) := by
    push_neg
    exact ⟨hP, hA⟩
  have hcl : classifyOne G t cnt = rectFillCheck G cnt := by
    unfold classifyOne
    rw [if_neg hdeg, if_neg hC]
    rcases hS with h | h <;> rw [h]
  rw [hcl]
  unfold rectFillCheck
  constructor
  · constructor
    · intro hr
      by_contra hratio
      rw [if_neg] at hr
      · exact Bucket.noConfusion hr
      · intro hand
        exact hratio hand.2
    · intro hratio
      rw [if_pos ⟨pos_of_div_gt hA hratio, hratio⟩]
  · intro hratio
    rw [if_neg]
    intro hand
    exact hratio hand.2

/-- C4: for an in-bounds sample point, the color classifier tests table
entries in insertion order and returns the name of the first entry the
pixel satisfies (so of two matching entries the earlier wins); a
list-of-intervals entry matches iff the pixel lies in any one listed
interval, an interval containing the pixel iff every channel is within the
closed inclusive bounds; when no entry matches the result is unknown. -/
theorem claim_C4 (img : HsvImage) (x y : ℤ) (hx : 0 ≤ x) (hy : 0 ≤ y)
    (hxw : x < (img.width : ℤ)) (hyh : y < (img.height : ℤ)) :
    (∀ (pre post : List (String × ColorRanges)) (name : String)
        (e : ColorRanges),
      (∀ q ∈ pre, rangesMatch q.2 (img.pixel y.toNat x.toNat) = false) →
      rangesMatch e (img.pixel y.toNat x.toNat) = true →
      get_color_at_point img x y (pre ++ (name, e) :: post) = name) ∧
    (∀ table : List (String × ColorRanges),
      (∀ q ∈ table, rangesMatch q.2 (img.pixel y.toNat x.toNat) = false) →
      get_color_at_point img x y table = "unknown") ∧
    (∀ intervals : List (HSV × HSV),
      rangesMatch (ColorRanges.multi intervals)
          (img.pixel y.toNat x.toNat) = true ↔
        ∃ r ∈ intervals,
          inRange (img.pixel y.toNat x.toNat) r.1 r.2 = true) ∧
    (∀ lower upper : HSV,
      rangesMatch (ColorRanges.single lower upper)
          (img.pixel y.toNat x.toNat) = true ↔
        (lower.1 ≤ (img.pixel y.toNat x.toNat).1 ∧
         (img.pixel y.toNat x.toNat).1 ≤ upper.1 ∧
         lower.2.1 ≤ (img.pixel y.toNat x.toNat).2.1 ∧
         (img.pixel y.toNat x.toNat).2.1 ≤ upper.2.1 ∧
         lower.2.2 ≤ (img.pixel y.toNat x.toNat).2.2 ∧
         (img.pixel y.toNat x.toNat).2.2 ≤ upper.2.2)) := by
  have hb : ¬ (x < 0 ∨ y < 0 ∨ x ≥ (img.width : ℤ) ∨
      y ≥ (img.height : ℤ)) := by
    push_neg
    exact ⟨hx, hy, hxw, hyh⟩
  have hfc : ∀ tbl, get_color_at_point img x y tbl =
      firstColor (img.pixel y.toNat x.toNat) tbl := by
    intro tbl
    unfold get_color_at_point
    rw [if_neg hb]
  refine ⟨?_, ?_, ?_, ?_⟩
  · intro pre post name e
    induction pre with
    | nil =>
        intro _ hm
        rw [hfc]
        simp [firstColor, hm]
    | cons q rest ih =>
        intro hpre hm
        obtain ⟨qn, qr⟩ := q
        have hq : rangesMatch qr (img.pixel y.toNat x.toNat) = false :=
          hpre (qn, qr) (List.mem_cons_self _ _)
        have hrest := ih (fun p hp => hpre p (List.mem_cons_of_mem _ hp)) hm
        rw [hfc] at hrest ⊢
        simpa [firstColor, hq] using hrest
  · intro table
    induction table with
    | nil =>
        intro _
        rw [hfc]
        rfl
    | cons q rest ih =>
        intro hall
        obtain ⟨qn, qr⟩ := q
        have hq : rangesMatch qr (img.pixel y.toNat x.toNat) = false :=
          hall (qn, qr) (List.mem_cons_self _ _)
        have hrest := ih (fun p hp => hall p (List.mem_cons_of_mem _ hp))
        rw [hfc] at hrest ⊢
        simpa [firstColor, hq] using hrest
  · intro intervals
    simp [rangesMatch, List.any_eq_true]
  · intro lower upper
    simp [rangesMatch, inRange]

/-- C5: the partitioner raises TypeError when its argument is not a
sequence, ValueError when the sequence is empty, and on a non-empty
sequence never raises, classifying exactly the ndarray elements and
silently skipping the rest. -/
theorem claim_C5 (G : Geometry) (t : ℚ) :
    classify_contours G ContoursInput.notSeq t =
      Except.error PyError.typeError ∧
    classify_contours G (ContoursInput.seq []) t =
      Except.error PyError.valueError ∧
    (∀ l : List PyVal, l ≠ [] →
      classify_contours G (ContoursInput.seq l) t =
        Except.ok (bucketsOf G t (validContours l))) := by
  refine ⟨rfl, rfl, ?_⟩
  intro l hl
  simp only [classify_contours]
  rw [if_neg hl, classifyLoop_eq_bucketsOf]

/-- C6: for any image, any range table and any sample point outside the
image bounds, the color classifier returns unknown. -/
theorem claim_C6 (hsv_img : HsvImage) (x y : ℤ)
    (table : List (String × ColorRanges))
    (h : x < 0 ∨ y < 0 ∨ x ≥ (hsv_img.width : ℤ) ∨
      y ≥ (hsv_img.height : ℤ)) :
    get_color_at_point hsv_img x y table = "unknown" := by
  unfold get_color_at_point
  rw [if_pos h]

/-- C7: the object labeler produces no record for a pair exactly when the
contour area is below 100 or the zeroth moment is zero; otherwise it emits
the (contour, label, color) triple whose color is unknown for an
out-of-bounds truncated centroid and the classifier's result at the
centroid otherwise; records are emitted in input order. -/
theorem claim_C7 (G : Geometry) (img : HsvImage)
    (table : List (String × ColorRanges)) (contour : Contour)
    (shape_label : String) :
    (labelOne G img table contour shape_label = none ↔
      G.contourArea contour < 100 ∨ G.m00 contour = 0) ∧
    (¬ G.contourArea contour < 100 → G.m00 contour ≠ 0 →
      labelOne G img table contour shape_label =
        some (contour, shape_label,
          if pyInt (G.m10 contour / G.m00 contour) < 0 ∨
              pyInt (G.m01 contour / G.m00 contour) < 0 ∨
              pyInt (G.m10 contour / G.m00 contour) ≥ (img.width : ℤ) ∨
              pyInt (G.m01 contour / G.m00 contour) ≥ (img.height : ℤ) then
            "unknown"
          else
            get_color_at_point img (pyInt (G.m10 contour / G.m00 contour))
              (pyInt (G.m01 contour / G.m00 contour)) table)) ∧
    (∀ (cl1 cl2 : List Contour) (sl1 sl2 : List String),
      cl1.length = sl1.length →
      detect_shapes_and_colors G img table (cl1 ++ cl2) (sl1 ++ sl2) =
        detect_shapes_and_colors G img table cl1 sl1 ++
          detect_shapes_and_colors G img table cl2 sl2) := by
  refine ⟨?_, ?_, ?_⟩
  · unfold labelOne
    split_ifs with h1 h2 <;> simp_all
  · intro h1 h2
    unfold labelOne
    rw [if_neg h1, if_pos h2]
  · intro cl1 cl2 sl1 sl2 hlen
    unfold detect_shapes_and_colors
    rw [List.zip_append hlen, List.filterMap_append]

/-- C8: a contour with non-positive perimeter or area is routed directly to
the others bucket, and processing of the surrounding contours continues
unaffected. -/
theorem claim_C8 (G : Geometry) (t : ℚ) (cnt : Contour)
    (h : G.arcLength cnt ≤ 0 ∨ G.contourArea cnt ≤ 0) :
    classifyOne G t cnt = Bucket.others ∧
    (∀ xs ys : List Contour,
      bucketsOf G t (xs ++ cnt :: ys) =
        ((bucketsOf G t xs).1 ++ (bucketsOf G t ys).1,
         (bucketsOf G t xs).2.1 ++ (bucketsOf G t ys).2.1,
         (bucketsOf G t xs).2.2 ++ cnt :: (bucketsOf G t ys).2.2)) := by
  have h1 : classifyOne G t cnt = Bucket.others := by
    unfold classifyOne
    rw [if_pos h]
  refine ⟨h1, ?_⟩
  intro xs ys
  rw [bucketsOf_append]
  simp [bucketsOf, h1, addToBucket]

/-- C9: each of the three buckets is the input list filtered by its
verdict, hence a sublist of the input list: relative input order is
preserved within every bucket. -/
theorem claim_C9 (G : Geometry) (t : ℚ) (l : List Contour) :
    bucketsOf G t l =
      (l.filter (fun c => decide (classifyOne G t c = Bucket.circles)),
       l.filter (fun c => decide (classifyOne G t c = Bucket.rects)),
       l.filter (fun c => decide (classifyOne G t c = Bucket.others))) ∧
    List.Sublist (bucketsOf G t l).1 l ∧
    List.Sublist (bucketsOf G t l).2.1 l ∧
    List.Sublist (bucketsOf G t l).2.2 l := by
  have hft : bucketsOf G t l =
      (l.filter (fun c => decide (classifyOne G t c = Bucket.circles)),
       l.filter (fun c => decide (classifyOne G t c = Bucket.rects)),
       l.filter (fun c => decide (classifyOne G t c = Bucket.others))) := by
    induction l with
    | nil => rfl
    | cons c rest ih =>
        cases hc : classifyOne G t c <;>
          simp [bucketsOf, addToBucket, List.filter_cons, hc, ih]
  refine ⟨hft, ?_, ?_, ?_⟩ <;> rw [hft]
  · exact List.filter_sublist l
  · exact List.filter_sublist l
  · exact List.filter_sublist l

/-- C10: with parallel sequences of unequal lengths, the labeler never
fails: it processes exactly the first min(len contours, len labels) pairs,
ignoring the surplus of the longer sequence. -/
theorem claim_C10 (G : Geometry) (img : HsvImage)
    (table : List (String × ColorRanges)) (contours_list : List Contour)
    (shape_labels : List String) :
    detect_shapes_and_colors G img table contours_list shape_labels =
      detect_shapes_and_colors G img table
        (contours_list.take (min contours_list.length shape_labels.length))
        (shape_labels.take (min contours_list.length shape_labels.length)) := by
  unfold detect_shapes_and_colors
  rw [← zip_eq_zip_take_min]

/-- Witness for C2: a contour of area 10000 and perimeter 400 has
circularity npPi/4, which exceeds the threshold 1/2, so it lands in the
circles bucket. -/
theorem claim_C2_witness : classifyOne witGeomA (1/2) [] = Bucket.circles :=
  ((claim_C2 witGeomA witGeomA (1/2) [] (by norm_num [witGeomA])
    (by norm_num [witGeomA])).2.2.1
    (by norm_num [circularity, npPi, witGeomA])).1

/-- Witness for C3: a low-circularity contour detected as a rectangle with
fill ratio 1 is kept in the rectangles bucket. -/
theorem claim_C3_witness : classifyOne witGeomB 0.8 [] = Bucket.rects :=
  (claim_C3 witGeomB 0.8 [] (by norm_num [witGeomB]) (by norm_num [witGeomB])
    (by norm_num [circularity, npPi, witGeomB])
    (Or.inl (by norm_num [ShapeDetector.detect, arOf, witGeomB]))).1.mpr
    (by norm_num [witGeomB])

/-- Witness for C4: with two deliberately overlapping entries both matching
the sampled pixel, the entry appearing first in table order wins. -/
theorem claim_C4_witness :
    get_color_at_point witImg 0 0
      [(("a" : String), ColorRanges.single (0, 0, 0) (255, 255, 255)),
       (("b" : String), ColorRanges.single (0, 0, 0) (255, 255, 255))] =
      "a" := by
  have h := (claim_C4 witImg 0 0 (by norm_num) (by norm_num)
    (by norm_num [witImg]) (by norm_num [witImg])).1
    [] [(("b" : String), ColorRanges.single (0, 0, 0) (255, 255, 255))]
    ("a") (ColorRanges.single (0, 0, 0) (255, 255, 255))
    (by simp) (by decide)
  simpa using h

/-- Witness for C5: a non-empty sequence holding only a wrong-typed element
is classified without raising, the element silently skipped. -/
theorem claim_C5_witness :
    classify_contours witGeomA (ContoursInput.seq [PyVal.invalid]) 0.8 =
      Except.ok ([], [], []) := by
  rw [(claim_C5 witGeomA 0.8).2.2 [PyVal.invalid] (by simp)]
  rfl

/-- Witness for C6: sampling at x = -1 on a 4x4 image returns unknown. -/
theorem claim_C6_witness :
    get_color_at_point witImg (-1) 0 default_color_hsv_ranges =
      "unknown" :=
  claim_C6 witImg (-1) 0 default_color_hsv_ranges (Or.inl (by norm_num))

/-- Witness for C7: a contour of area 10000 with m00 = 2, m10 = m01 = 10
has truncated centroid (5, 5), outside the 4x4 image, so its record has
color unknown. -/
theorem claim_C7_witness :
    labelOne witGeomA witImg default_color_hsv_ranges [] ("circle") =
      some ([], ("circle"), ("unknown")) := by
  rw [(claim_C7 witGeomA witImg default_color_hsv_ranges [] ("circle")).2.1
    (by norm_num [witGeomA]) (by norm_num [witGeomA])]
  norm_num [pyInt, witGeomA, witImg]

/-- Witness for C8: a contour with zero perimeter and area goes to the
others bucket. -/
theorem claim_C8_witness : classifyOne witGeomDeg 0.8 [] = Bucket.others :=
  (claim_C8 witGeomDeg 0.8 [] (Or.inl (by norm_num [witGeomDeg]))).1
